import Mathlib

/-!
# Verification of the AT-commander core (src/atcommander/atcommander.c)

A shallow embedding of the AT-command session engine.  Bytes are modelled as
integers (the C `read_function` returns an `int`, with `-1` meaning "no byte
available").  The transport adapter is modelled by an explicit world record:
the stream of poll results still to be delivered, and the traces of bytes
written, delays requested and baud reconfigurations issued.  Stateful C
functions become Lean functions from a configuration and a world to a result
together with the updated configuration and world.
-/

/-- `#define RETRY_DELAY_MS 50` -/
def RETRY_DELAY_MS : Int := 50

/-- `#define MAX_RETRIES 3` -/
def MAX_RETRIES : Nat := 3

/-- Modelled from the spec: the header `atcommander.h` (not in `src/`) defines
the default response settle delay used by the RN-42 platform profile; the spec
only calls it "response settle delay (milliseconds)" and no claim depends on
its numeric value, so it is fixed arbitrarily here. -/
def DEFAULT_RESPONSE_DELAY_MS : Int := 100

/-- The bytes of a C string literal (no terminating NUL; C string literals
contain no embedded NUL). -/
def cstr (s : String) : List Int :=
  s.toList.map (fun c => (c.toNat : Int))

/-- A request-template / expected-response pair.  Either pointer may be NULL
in the C struct, modelled by `none`. -/
structure AtCommanderCommand where
  request_format : Option (List Int)
  expected_response : Option (List Int)
deriving DecidableEq

/-- The per-device-family platform record (`AtCommanderPlatform`). -/
structure AtCommanderPlatform where
  response_delay_ms : Int
  baud_rate_mapper : Option (Int → Int)
  enter_command_mode_command : AtCommanderCommand
  exit_command_mode_command : AtCommanderCommand
  set_baud_rate_command : AtCommanderCommand
  store_settings_command : AtCommanderCommand
  reboot_command : AtCommanderCommand

/-- The session configuration (`AtCommanderConfig`).  Function-pointer fields
of the C struct are modelled by presence flags; the `read_function` itself is
modelled by the world's input stream. -/
structure AtCommanderConfig where
  platform : AtCommanderPlatform
  baud : Int
  device_baud : Int
  connected : Bool
  has_write_function : Bool
  has_delay_function : Bool
  has_baud_rate_initializer : Bool
  has_log_function : Bool

/-- The transport world: `input` is the stream of results the `read_function`
will return (one entry per poll, `-1` = no byte available; an exhausted list
behaves as a permanently silent device).  `writes`, `delays` and `baud_inits`
record the traffic sent to the adapter.  `attempts` is instrumentation for
`at_commander_enter_command_mode`: it records each candidate baud probed (the
per-candidate "Attempting to enter command mode" point in the source); it is
never read by any operation. -/
structure AtWorld where
  input : List Int
  writes : List Int
  delays : List Int
  baud_inits : List Int
  attempts : List Int
deriving DecidableEq

/-- `write` (atcommander.c:39-46): sends the given bytes, in order, through
the write capability; a silent no-op when none is configured.  Call sites pass
`strlen`, so the whole byte list is written (the one exception,
`at_commander_reboot`, passes an explicit `5` and is modelled with `take 5`). -/
def write (cfg : AtCommanderConfig) (w : AtWorld) (byte_list : List Int) : AtWorld :=
  { w with writes := w.writes ++ (if cfg.has_write_function then byte_list else []) }

/-- `delay_ms` (atcommander.c:51-55). -/
def delay_ms (cfg : AtCommanderConfig) (w : AtWorld) (ms : Int) : AtWorld :=
  { w with delays := w.delays ++ (if cfg.has_delay_function then [ms] else []) }

/-- Core of `read` (atcommander.c:64-78): the polling loop, on the raw input
stream.  Returns the bytes collected, the number of empty polls that occurred
(each one costs a `RETRY_DELAY_MS` delay in the source) and the remaining
stream.  The `while` loop runs as long as fewer than `size` bytes have been
collected and fewer than the retry budget of empty polls have happened; an
exhausted input stream answers `-1` to every poll, so it burns the whole
remaining budget without delivering a byte. -/
def read_aux : List Int → Nat → Nat → List Int × Nat × List Int
  | input, 0, _ => ([], 0, input)
  | input, _ + 1, 0 => ([], 0, input)
  | [], _ + 1, retries_left + 1 => ([], retries_left + 1, [])
  | b :: rest, size + 1, retries_left + 1 =>
    if b = -1 then
      let r := read_aux rest (size + 1) retries_left
      (r.1, r.2.1 + 1, r.2.2)
    else
      let r := read_aux rest size (retries_left + 1)
      (b :: r.1, r.2.1, r.2.2)

/-- `read` (atcommander.c:64-78) with its world effects: each empty poll
delays `RETRY_DELAY_MS` through the delay capability.  (Named `read_bytes`,
the spec's name for this primitive, because plain `read` collides with a core
Lean name.) -/
def read_bytes (cfg : AtCommanderConfig) (w : AtWorld) (size retries_budget : Nat) :
    List Int × AtWorld :=
  let r := read_aux w.input size retries_budget
  (r.1,
    { w with
      input := r.2.2,
      delays := w.delays ++
        (if cfg.has_delay_function then List.replicate r.2.1 RETRY_DELAY_MS else []) })

/-- Whether C `strncmp(a, b, n)` returns 0: compare up to `n` leading
entries, stopping early at the first difference or at a NUL byte found in
both.  The wildcard case (a list shorter than `n` with no NUL) is undefined
behaviour in C (reading past the buffer) and is unreachable from the call
site in `check_response`, which only compares equal-length buffers. -/
def strncmp_is_zero : List Int → List Int → Nat → Bool
  | _, _, 0 => true
  | [], _, _ + 1 => true
  | _, [], _ + 1 => true
  | x :: xs, y :: ys, n + 1 =>
    if x = y then (if x = 0 then true else strncmp_is_zero xs ys n) else false

/-- `check_response` (atcommander.c:85-101).  The C function receives each
buffer with its valid length; here a buffer is a list and its length is the
list's length.  The diagnostic messages it may emit do not affect the result,
which is the boolean alone. -/
def check_response (response expected : List Int) : Bool :=
  response.length == expected.length &&
    strncmp_is_zero response expected expected.length

/-- `command_request` (atcommander.c:108-119): write the command, wait the
profile's settle delay, read exactly as many bytes as the expected response
has, with a fixed budget of `MAX_RETRIES` empty polls, and verify. -/
def command_request (cfg : AtCommanderConfig) (w : AtWorld)
    (command expected : List Int) : Bool × AtWorld :=
  let w1 := write cfg w command
  let w2 := delay_ms cfg w1 cfg.platform.response_delay_ms
  let r := read_bytes cfg w2 expected.length MAX_RETRIES
  (check_response r.1 expected, r.2)

/-- `initialize_baud` (atcommander.c:127-137): reconfigure the host UART when
a baud-rate initializer capability is present, recording the new baud in the
configuration; otherwise only log and report failure, changing nothing. -/
def initialize_baud (cfg : AtCommanderConfig) (w : AtWorld) (baud : Int) :
    Bool × AtCommanderConfig × AtWorld :=
  if cfg.has_baud_rate_initializer then
    (true, { cfg with baud := baud },
      { w with baud_inits := w.baud_inits ++ [baud] })
  else
    (false, cfg, w)

/-- Modelled from the spec: `VALID_BAUD_RATES` lives in `atcommander.h`,
which is not under `src/`.  The spec describes it as "a fixed ordered set of
UART baud rates to probe during discovery (standard values spanning
1200-115200)" whose order is significant, and its discovery scenario has 1200
as the first candidate and 9600 as the second. -/
def VALID_BAUD_RATES : List Int := [1200, 9600, 19200, 38400, 57600, 115200]

/-- The candidate loop of `at_commander_enter_command_mode`
(atcommander.c:142-153): for each candidate baud in order, reconfigure the
UART (best effort), issue the enter-command-mode descriptor, and stop at the
first success, setting `connected`.  The enter descriptor is never NULL in
the repository's profiles (the spec makes it the one mandatory descriptor);
`getD []` covers the impossible case.  The `attempts` update is the
instrumentation described on `AtWorld`. -/
def enter_probe : AtCommanderConfig → AtWorld → List Int →
    AtCommanderConfig × AtWorld
  | cfg, w, [] => (cfg, w)
  | cfg, w, baud :: rest =>
    let ib := initialize_baud cfg w baud
    let w1 := { ib.2.2 with attempts := ib.2.2.attempts ++ [baud] }
    let rt := command_request ib.2.1 w1
      (ib.2.1.platform.enter_command_mode_command.request_format.getD [])
      (ib.2.1.platform.enter_command_mode_command.expected_response.getD [])
    if rt.1 then ({ ib.2.1 with connected := true }, rt.2)
    else enter_probe ib.2.1 rt.2 rest

/-- The round-trip outcome of each candidate actually probed by
`enter_probe`, in probe order: `false` for each failed candidate, ending with
`true` when some candidate succeeds.  Defined by the same recursion as
`enter_probe`, so its length is the number of candidates attempted. -/
def enter_probe_results : AtCommanderConfig → AtWorld → List Int → List Bool
  | _, _, [] => []
  | cfg, w, baud :: rest =>
    let ib := initialize_baud cfg w baud
    let w1 := { ib.2.2 with attempts := ib.2.2.attempts ++ [baud] }
    let rt := command_request ib.2.1 w1
      (ib.2.1.platform.enter_command_mode_command.request_format.getD [])
      (ib.2.1.platform.enter_command_mode_command.expected_response.getD [])
    if rt.1 then [true] else false :: enter_probe_results ib.2.1 rt.2 rest

/-- `at_commander_enter_command_mode` (atcommander.c:139-165): when already
connected this is a no-op returning true; otherwise probe the candidate baud
list and return the resulting `connected` flag. -/
def at_commander_enter_command_mode (cfg : AtCommanderConfig) (w : AtWorld) :
    Bool × AtCommanderConfig × AtWorld :=
  if cfg.connected then (true, cfg, w)
  else
    let p := enter_probe cfg w VALID_BAUD_RATES
    (p.1.connected, p.1, p.2)

/-- The single exit round trip issued by `at_commander_exit_command_mode`
(atcommander.c:169-171). -/
def exit_round_trip (cfg : AtCommanderConfig) (w : AtWorld) : Bool × AtWorld :=
  command_request cfg w
    (cfg.platform.exit_command_mode_command.request_format.getD [])
    (cfg.platform.exit_command_mode_command.expected_response.getD [])

/-- `at_commander_exit_command_mode` (atcommander.c:167-183). -/
def at_commander_exit_command_mode (cfg : AtCommanderConfig) (w : AtWorld) :
    Bool × AtCommanderConfig × AtWorld :=
  if cfg.connected then
    let rt := exit_round_trip cfg w
    if rt.1 then (true, { cfg with connected := false }, rt.2)
    else (false, cfg, rt.2)
  else (true, cfg, w)

/-- `at_commander_reboot` (atcommander.c:185-194): enter command mode, then
write the reboot request directly — the source passes a hard-coded size of
`5` to `write`, so exactly the first five bytes of the literal are sent (the
RN-42 literal `"R,1\r\n"` is exactly five bytes; a shorter literal would make
the C read past its end, which no profile in the repository does). -/
def at_commander_reboot (cfg : AtCommanderConfig) (w : AtWorld) :
    Bool × AtCommanderConfig × AtWorld :=
  let e := at_commander_enter_command_mode cfg w
  if e.1 then
    (true, e.2.1,
      write e.2.1 e.2.2 ((e.2.1.platform.reboot_command.request_format.getD []).take 5))
  else (false, e.2.1, e.2.2)

/-- `at_commander_store_settings` (atcommander.c:196-211): a no-op returning
false when either half of the store descriptor is NULL; otherwise one round
trip through the engine, whose boolean is returned. -/
def at_commander_store_settings (cfg : AtCommanderConfig) (w : AtWorld) :
    Bool × AtWorld :=
  match cfg.platform.store_settings_command.request_format,
      cfg.platform.store_settings_command.expected_response with
  | some req, some resp => command_request cfg w req resp
  | _, _ => (false, w)

/-- `passthrough_baud_rate_mapper` (atcommander.c:239-241). -/
def passthrough_baud_rate_mapper (baud : Int) : Int := baud

/-- `xbee_baud_rate_mapper` (atcommander.c:243-272): the `switch` maps the
eight listed baud rates to the codes 0..7; for any other input the C function
returns its local `value` uninitialized — undefined behaviour, modelled as
`none`. -/
def xbee_baud_rate_mapper (baud : Int) : Option Int :=
  if baud = 1200 then some 0
  else if baud = 2300 then some 1
  else if baud = 4800 then some 2
  else if baud = 9600 then some 3
  else if baud = 19200 then some 4
  else if baud = 38400 then some 5
  else if baud = 57600 then some 6
  else if baud = 115200 then some 7
  else none

/-- `sprintf` of a template containing at most one `%d` directive
(atcommander.c:221-222): the first `%d` (bytes 37, 100) is replaced by the
decimal rendering of the value; `sprintf` then also writes one terminating
NUL byte beyond the returned content. -/
def subst_d : List Int → Int → List Int
  | [], _ => []
  | 37 :: 100 :: rest, v => cstr (toString v) ++ rest
  | c :: rest, v => c :: subst_d rest v

/-- The set-baud round trip inside `at_commander_set_baud`
(atcommander.c:215-224), issued in the state reached after entering command
mode: the request template with the mapped baud value substituted (the mapper
defaults to `passthrough_baud_rate_mapper` when the profile has none),
verified against the descriptor's expected response. -/
def set_baud_round_trip (cfg : AtCommanderConfig) (w : AtWorld) (baud : Int) :
    Bool × AtWorld :=
  let e := at_commander_enter_command_mode cfg w
  command_request e.2.1 e.2.2
    (subst_d (e.2.1.platform.set_baud_rate_command.request_format.getD [])
      ((e.2.1.platform.baud_rate_mapper.getD passthrough_baud_rate_mapper) baud))
    (e.2.1.platform.set_baud_rate_command.expected_response.getD [])

/-- `at_commander_set_baud` (atcommander.c:213-237): enter command mode,
issue the formatted set-baud request, and on success record the new device
baud and attempt (best-effort) to store the settings. -/
def at_commander_set_baud (cfg : AtCommanderConfig) (w : AtWorld) (baud : Int) :
    Bool × AtCommanderConfig × AtWorld :=
  let e := at_commander_enter_command_mode cfg w
  if e.1 then
    let rt := set_baud_round_trip cfg w baud
    if rt.1 then
      let cfg2 := { e.2.1 with device_baud := baud }
      (true, cfg2, (at_commander_store_settings cfg2 rt.2).2)
    else (false, e.2.1, rt.2)
  else (false, e.2.1, e.2.2)

/-- `AT_PLATFORM_RN42` (atcommander.c:17-25). -/
def AT_PLATFORM_RN42 : AtCommanderPlatform :=
  { response_delay_ms := DEFAULT_RESPONSE_DELAY_MS
    baud_rate_mapper := none
    enter_command_mode_command := ⟨some (cstr "$$$"), some (cstr "CMD\r\n")⟩
    exit_command_mode_command := ⟨some (cstr "---"), some (cstr "END\r\n")⟩
    set_baud_rate_command := ⟨some (cstr "SU,%d\r\n"), some (cstr "AOK\r\n")⟩
    store_settings_command := ⟨none, none⟩
    reboot_command := ⟨some (cstr "R,1\r\n"), none⟩ }

/-- A concrete RN-42 session configuration for witnesses and
counterexamples. -/
def rn42_config (conn hinit : Bool) : AtCommanderConfig :=
  { platform := AT_PLATFORM_RN42
    baud := 0
    device_baud := 0
    connected := conn
    has_write_function := true
    has_delay_function := true
    has_baud_rate_initializer := hinit
    has_log_function := false }

/-- A world with the given pending input and empty traces. -/
def world0 (inp : List Int) : AtWorld :=
  { input := inp, writes := [], delays := [], baud_inits := [], attempts := [] }

/-! ## Helper lemmas about the primitives -/

@[simp] lemma initialize_baud_platform (cfg : AtCommanderConfig) (w : AtWorld) (baud : Int) :
    (initialize_baud cfg w baud).2.1.platform = cfg.platform := by
  unfold initialize_baud; split <;> rfl

@[simp] lemma initialize_baud_connected (cfg : AtCommanderConfig) (w : AtWorld) (baud : Int) :
    (initialize_baud cfg w baud).2.1.connected = cfg.connected := by
  unfold initialize_baud; split <;> rfl

@[simp] lemma initialize_baud_device_baud (cfg : AtCommanderConfig) (w : AtWorld) (baud : Int) :
    (initialize_baud cfg w baud).2.1.device_baud = cfg.device_baud := by
  unfold initialize_baud; split <;> rfl

@[simp] lemma initialize_baud_has_write (cfg : AtCommanderConfig) (w : AtWorld) (baud : Int) :
    (initialize_baud cfg w baud).2.1.has_write_function = cfg.has_write_function := by
  unfold initialize_baud; split <;> rfl

@[simp] lemma initialize_baud_has_delay (cfg : AtCommanderConfig) (w : AtWorld) (baud : Int) :
    (initialize_baud cfg w baud).2.1.has_delay_function = cfg.has_delay_function := by
  unfold initialize_baud; split <;> rfl

@[simp] lemma initialize_baud_has_init (cfg : AtCommanderConfig) (w : AtWorld) (baud : Int) :
    (initialize_baud cfg w baud).2.1.has_baud_rate_initializer
      = cfg.has_baud_rate_initializer := by
  unfold initialize_baud; split <;> rfl

@[simp] lemma initialize_baud_has_log (cfg : AtCommanderConfig) (w : AtWorld) (baud : Int) :
    (initialize_baud cfg w baud).2.1.has_log_function = cfg.has_log_function := by
  unfold initialize_baud; split <;> rfl

lemma initialize_baud_baud (cfg : AtCommanderConfig) (w : AtWorld) (baud : Int) :
    (initialize_baud cfg w baud).2.1.baud
      = (if cfg.has_baud_rate_initializer then baud else cfg.baud) := by
  unfold initialize_baud; split <;> rfl

@[simp] lemma initialize_baud_attempts (cfg : AtCommanderConfig) (w : AtWorld) (baud : Int) :
    (initialize_baud cfg w baud).2.2.attempts = w.attempts := by
  unfold initialize_baud; split <;> rfl

@[simp] lemma initialize_baud_writes (cfg : AtCommanderConfig) (w : AtWorld) (baud : Int) :
    (initialize_baud cfg w baud).2.2.writes = w.writes := by
  unfold initialize_baud; split <;> rfl

@[simp] lemma command_request_attempts (cfg : AtCommanderConfig) (w : AtWorld)
    (c e : List Int) : (command_request cfg w c e).2.attempts = w.attempts := by
  simp [command_request, write, delay_ms, read_bytes]

@[simp] lemma command_request_baud_inits (cfg : AtCommanderConfig) (w : AtWorld)
    (c e : List Int) : (command_request cfg w c e).2.baud_inits = w.baud_inits := by
  simp [command_request, write, delay_ms, read_bytes]

@[simp] lemma command_request_writes (cfg : AtCommanderConfig) (w : AtWorld)
    (c e : List Int) : (command_request cfg w c e).2.writes
      = w.writes ++ (if cfg.has_write_function then c else []) := by
  simp [command_request, write, delay_ms, read_bytes]

/-- For equal-length buffers whose expected side is NUL-free (always true of
the C call site, where the expected length is `strlen` of a literal),
`strncmp` agreeing on the full length is exactly equality of the buffers. -/
lemma strncmp_is_zero_iff (e : List Int) : ∀ r : List Int, r.length = e.length →
    (∀ x ∈ e, x ≠ 0) → (strncmp_is_zero r e e.length = true ↔ r = e) := by
  induction e with
  | nil =>
    intro r hl _
    have hl0 : r = [] := List.length_eq_zero.mp (by simpa using hl)
    subst hl0
    simp [strncmp_is_zero]
  | cons y ys ih =>
    intro r hl hz
    cases r with
    | nil => simp at hl
    | cons x xs =>
      have hl' : xs.length = ys.length := by simpa using hl
      have hy : y ≠ 0 := hz y (by simp)
      by_cases hxy : x = y
      · subst hxy
        have := ih xs hl' (fun z hzz => hz z (by simp [hzz]))
        simp [List.length_cons, strncmp_is_zero, hy, this]
      · simp [List.length_cons, strncmp_is_zero, hxy]

/-! ## Claim theorems -/

/-- C2: `check_response` returns true iff the actual and expected byte
sequences have equal length and identical content; a length mismatch alone
forces false regardless of content.  The hypothesis says the expected
sequence is NUL-free, which holds of every expected response in the program
(its length is `strlen` of a C string literal); the function is total and
signals failure only through its boolean result. -/
theorem check_response_spec (response expected : List Int)
    (h : ∀ x ∈ expected, x ≠ 0) :
    (check_response response expected = true ↔ response = expected) ∧
    (response.length ≠ expected.length → check_response response expected = false) := by
  constructor
  · by_cases hl : response.length = expected.length
    · have hiff := strncmp_is_zero_iff expected response hl h
      simp [check_response, hl, hiff]
    · constructor
      · intro hc
        rw [check_response, Bool.and_eq_true, beq_iff_eq] at hc
        exact absurd hc.1 hl
      · intro he
        exact absurd (congrArg List.length he) hl
  · intro hl
    have hb : (response.length == expected.length) = false := by
      simpa using hl
    simp [check_response, hb]

/-- C2 witness: a concrete match and a concrete length mismatch. -/
theorem check_response_spec_witness :
    check_response (cstr "CMD\r\n") (cstr "CMD\r\n") = true ∧
    check_response (cstr "EN\r\n") (cstr "END\r\n") = false :=
  ⟨(check_response_spec (cstr "CMD\r\n") (cstr "CMD\r\n") (by decide)).1.mpr rfl,
    (check_response_spec (cstr "EN\r\n") (cstr "END\r\n") (by decide)).2 (by decide)⟩

/-- C4: the retrying read always stops within its retry budget: the number of
empty polls (each one a delay cycle) never exceeds the budget, it never
collects more than `size` bytes, it stops exactly when `size` bytes are
collected or the globally accumulated retry counter reaches the budget, and
the bytes returned are precisely the non-empty polls of the consumed prefix
of the stream — a received byte never resets the counter, since the single
budget bounds the empty polls of the whole consumed prefix (the count of
`-1` entries in it), however bytes and empty polls are interleaved (an
exhausted stream burns further polls without consuming entries, hence the
inequality).  The C function's return value is the number of bytes
collected, which may be anything from `0` to `size`. -/
theorem read_aux_spec : ∀ (input : List Int) (size retries_left : Nat),
    (read_aux input size retries_left).2.1 ≤ retries_left ∧
    (read_aux input size retries_left).1.length ≤ size ∧
    ((read_aux input size retries_left).1.length = size ∨
      (read_aux input size retries_left).2.1 = retries_left) ∧
    ∃ consumed, input = consumed ++ (read_aux input size retries_left).2.2 ∧
      (read_aux input size retries_left).1
        = consumed.filter (fun b => decide (b ≠ -1)) ∧
      (consumed.filter (fun b => decide (b = -1))).length
        ≤ (read_aux input size retries_left).2.1 := by
  intro input
  induction input with
  | nil =>
    intro size retries_left
    cases size with
    | zero => exact ⟨Nat.zero_le _, by simp [read_aux], Or.inl (by simp [read_aux]),
        ⟨[], by simp [read_aux]⟩⟩
    | succ s =>
      cases retries_left with
      | zero => exact ⟨Nat.le_refl _, by simp [read_aux], Or.inr (by simp [read_aux]),
          ⟨[], by simp [read_aux]⟩⟩
      | succ r => exact ⟨by simp [read_aux], by simp [read_aux],
          Or.inr (by simp [read_aux]), ⟨[], by simp [read_aux]⟩⟩
  | cons b rest ih =>
    intro size retries_left
    cases size with
    | zero => exact ⟨Nat.zero_le _, by simp [read_aux], Or.inl (by simp [read_aux]),
        ⟨[], by simp [read_aux]⟩⟩
    | succ s =>
      cases retries_left with
      | zero => exact ⟨Nat.le_refl _, by simp [read_aux], Or.inr (by simp [read_aux]),
          ⟨[], by simp [read_aux]⟩⟩
      | succ r =>
        by_cases hb : b = -1
        · obtain ⟨h1, h2, h3, c, hc1, hc2, hc3⟩ := ih (s + 1) r
          subst hb
          refine ⟨?_, ?_, ?_, (-1) :: c, ?_, ?_, ?_⟩ <;>
            simp only [read_aux, if_pos rfl]
          · exact Nat.succ_le_succ h1
          · exact h2
          · rcases h3 with h3 | h3
            · exact Or.inl h3
            · exact Or.inr (by simp [h3])
          · simpa using hc1
          · simpa using hc2
          · simpa using Nat.succ_le_succ hc3
        · obtain ⟨h1, h2, h3, c, hc1, hc2, hc3⟩ := ih s (r + 1)
          refine ⟨?_, ?_, ?_, b :: c, ?_, ?_, ?_⟩ <;>
            simp only [read_aux, if_neg hb]
          · exact h1
          · simpa using Nat.succ_le_succ h2
          · rcases h3 with h3 | h3
            · exact Or.inl (by simp [h3])
            · exact Or.inr h3
          · simpa using hc1
          · simp [hb, hc2]
          · simpa [hb] using hc3

/-- C9: the XBee baud mapper sends the eight listed standard baud rates to the
sequential codes 0..7 (in particular 9600 to 3 and 115200 to 7) and is
undefined (`none`, an uninitialized read in the C) on every other input;
`passthrough_baud_rate_mapper` is the identity and is the mapper
`at_commander_set_baud` falls back to when the profile configures none. -/
theorem baud_rate_mapper_spec :
    xbee_baud_rate_mapper 1200 = some 0 ∧ xbee_baud_rate_mapper 2300 = some 1 ∧
    xbee_baud_rate_mapper 4800 = some 2 ∧ xbee_baud_rate_mapper 9600 = some 3 ∧
    xbee_baud_rate_mapper 19200 = some 4 ∧ xbee_baud_rate_mapper 38400 = some 5 ∧
    xbee_baud_rate_mapper 57600 = some 6 ∧ xbee_baud_rate_mapper 115200 = some 7 ∧
    (∀ b : Int,
      b ∉ ([1200, 2300, 4800, 9600, 19200, 38400, 57600, 115200] : List Int) →
      xbee_baud_rate_mapper b = none) ∧
    (∀ b : Int, passthrough_baud_rate_mapper b = b) ∧
    (∀ p : AtCommanderPlatform, p.baud_rate_mapper = none →
      p.baud_rate_mapper.getD passthrough_baud_rate_mapper
        = passthrough_baud_rate_mapper) := by
  refine ⟨rfl, rfl, rfl, rfl, rfl, rfl, rfl, rfl, ?_, fun b => rfl, ?_⟩
  · intro b hb
    simp only [List.mem_cons, List.not_mem_nil, or_false, not_or] at hb
    obtain ⟨n1, n2, n3, n4, n5, n6, n7, n8⟩ := hb
    simp [xbee_baud_rate_mapper, n1, n2, n3, n4, n5, n6, n7, n8]
  · intro p hp
    rw [hp]
    rfl

/-- C9 witness: the mapper is undefined at the unlisted input 300. -/
theorem baud_rate_mapper_spec_witness : xbee_baud_rate_mapper 300 = none :=
  baud_rate_mapper_spec.2.2.2.2.2.2.2.2.1 300 (by decide)

/-- C10: the formatted set-baud request does NOT fit in the 5-byte stack
buffer.  With the RN-42 profile's template `"SU,%d\r\n"` and its identity
baud mapping, baud 9600 formats to `"SU,9600\r\n"` — 9 content bytes, and
`sprintf` writes one more terminating NUL, so 10 bytes are written into
`char command[5]` (atcommander.c:215,221): a 10-byte store into a 5-byte
buffer. -/
theorem set_baud_format_overflow :
    (subst_d (AT_PLATFORM_RN42.set_baud_rate_command.request_format.getD [])
        ((AT_PLATFORM_RN42.baud_rate_mapper.getD passthrough_baud_rate_mapper)
          9600)).length + 1 = 10 ∧
    5 < (subst_d (AT_PLATFORM_RN42.set_baud_rate_command.request_format.getD [])
        ((AT_PLATFORM_RN42.baud_rate_mapper.getD passthrough_baud_rate_mapper)
          9600)).length + 1 := by
  constructor <;> decide

/-! ## The baud-discovery probe: preservation and characterization -/

/-- `enter_probe` never touches any configuration field other than `baud`
and `connected`. -/
lemma enter_probe_preserves (l : List Int) : ∀ (cfg : AtCommanderConfig)
    (w : AtWorld),
    (enter_probe cfg w l).1.platform = cfg.platform ∧
    (enter_probe cfg w l).1.device_baud = cfg.device_baud ∧
    (enter_probe cfg w l).1.has_write_function = cfg.has_write_function ∧
    (enter_probe cfg w l).1.has_delay_function = cfg.has_delay_function ∧
    (enter_probe cfg w l).1.has_baud_rate_initializer
      = cfg.has_baud_rate_initializer ∧
    (enter_probe cfg w l).1.has_log_function = cfg.has_log_function := by
  induction l with
  | nil => intro cfg w; exact ⟨rfl, rfl, rfl, rfl, rfl, rfl⟩
  | cons baud rest ih =>
    intro cfg w
    rw [enter_probe]
    split
    · exact ⟨by simp, by simp, by simp, by simp, by simp, by simp⟩
    · obtain ⟨p1, p2, p3, p4, p5, p6⟩ := ih (initialize_baud cfg w baud).2.1 _
      exact ⟨by rw [p1]; simp, by rw [p2]; simp, by rw [p3]; simp,
        by rw [p4]; simp, by rw [p5]; simp, by rw [p6]; simp⟩

/-- Characterization of the discovery loop, for an arbitrary candidate list:
the attempted candidates are exactly a prefix of the list (one attempt each,
in list order, with the enter request written once per attempt), and either
some attempt succeeds — all earlier ones having failed — leaving the machine
connected (with the successful candidate recorded as the UART baud whenever a
baud-rate initializer is configured), or every candidate fails and the
machine stays disconnected. -/
theorem enter_probe_spec (l : List Int) : ∀ (cfg : AtCommanderConfig) (w : AtWorld),
    cfg.connected = false →
    (enter_probe_results cfg w l).length ≤ l.length ∧
    (enter_probe cfg w l).2.attempts
      = w.attempts ++ l.take (enter_probe_results cfg w l).length ∧
    (enter_probe cfg w l).2.writes
      = w.writes ++ (List.replicate (enter_probe_results cfg w l).length
          (if cfg.has_write_function then
            cfg.platform.enter_command_mode_command.request_format.getD []
          else [])).flatten ∧
    ((∃ n, enter_probe_results cfg w l = List.replicate n false ++ [true] ∧
        (enter_probe cfg w l).1.connected = true ∧
        (cfg.has_baud_rate_initializer = true →
          (enter_probe cfg w l).1.baud = l.getD n 0)) ∨
      (enter_probe_results cfg w l = List.replicate l.length false ∧
        (enter_probe cfg w l).1.connected = false)) := by
  induction l with
  | nil =>
    intro cfg w h
    refine ⟨Nat.le_refl _, ?_, ?_, Or.inr ⟨rfl, h⟩⟩
    · simp [enter_probe, enter_probe_results]
    · simp [enter_probe, enter_probe_results]
  | cons baud rest ih =>
    intro cfg w h
    rw [enter_probe, enter_probe_results]
    set ib := initialize_baud cfg w baud with hib
    set w1 : AtWorld := { ib.2.2 with attempts := ib.2.2.attempts ++ [baud] } with hw1
    set rt := command_request ib.2.1 w1
      (ib.2.1.platform.enter_command_mode_command.request_format.getD [])
      (ib.2.1.platform.enter_command_mode_command.expected_response.getD []) with hrt
    by_cases hr : rt.1 = true
    · rw [if_pos hr, if_pos hr]
      refine ⟨by simp, ?_, ?_, Or.inl ⟨0, by simp, by simp, ?_⟩⟩
      · rw [hrt, hw1, hib]; simp
      · rw [hrt, hw1, hib]; simp
      · intro hinit
        simp [hib, initialize_baud_baud, hinit]
    · rw [if_neg hr, if_neg hr]
      have hconn : ib.2.1.connected = false := by rw [hib]; simp [h]
      obtain ⟨L1, L2, L3, L4⟩ := ih ib.2.1 rt.2 hconn
      refine ⟨by simpa using Nat.succ_le_succ L1, ?_, ?_, ?_⟩
      · rw [L2, hrt, hw1, hib]
        simp [List.take_succ_cons]
      · rw [L3, hrt, hw1, hib]
        simp [List.replicate_succ]
      · rcases L4 with ⟨n, hres, hcon, hbaud⟩ | ⟨hres, hcon⟩
        · refine Or.inl ⟨n + 1, ?_, hcon, ?_⟩
          · rw [hres]; simp [List.replicate_succ]
          · intro hinit
            have hinit2 : ib.2.1.has_baud_rate_initializer = true := by
              rw [hib]; simp [hinit]
            rw [hbaud hinit2]
            simp [List.getD_cons_succ]
        · refine Or.inr ⟨?_, hcon⟩
          rw [hres]; simp [List.replicate_succ]

/-- Entering command mode never changes the platform, the recorded device
baud, or the capability flags of the session. -/
lemma at_commander_enter_preserves (cfg : AtCommanderConfig) (w : AtWorld) :
    (at_commander_enter_command_mode cfg w).2.1.platform = cfg.platform ∧
    (at_commander_enter_command_mode cfg w).2.1.device_baud = cfg.device_baud ∧
    (at_commander_enter_command_mode cfg w).2.1.has_write_function
      = cfg.has_write_function := by
  by_cases h : cfg.connected = true
  · simp [at_commander_enter_command_mode, h]
  · have hp := enter_probe_preserves VALID_BAUD_RATES cfg w
    rw [at_commander_enter_command_mode, if_neg h]
    exact ⟨hp.1, hp.2.1, hp.2.2.1⟩

/-- The probe writes the session's baud field only through `initialize_baud`
(atcommander.c:127-137), whose assignment is guarded by the baud-rate
initializer capability: without that capability the baud field survives the
whole discovery loop unchanged. -/
lemma enter_probe_no_init_baud (l : List Int) : ∀ (cfg : AtCommanderConfig)
    (w : AtWorld), cfg.has_baud_rate_initializer = false →
    (enter_probe cfg w l).1.baud = cfg.baud := by
  induction l with
  | nil => intro cfg w _; rfl
  | cons baud rest ih =>
    intro cfg w h
    rw [enter_probe]
    split
    · simp [initialize_baud_baud, h]
    · rw [ih _ _ (by simp [h])]
      simp [initialize_baud_baud, h]

/-- C1 (amended): starting from `Disconnected`, discovery attempts the
candidates of `VALID_BAUD_RATES` in order, each at most once (the attempt
trace is a duplicate-free prefix of the list and the enter descriptor is
written once per attempt); it stops at the first candidate whose round trip
succeeds, setting `connected`, and recording that candidate as the session
baud only when a baud-rate initializer capability is configured — without
that capability the baud field is left unchanged; when every candidate fails
it returns false with `connected` still false. -/
theorem at_commander_enter_command_mode_spec (cfg : AtCommanderConfig)
    (w : AtWorld) (h : cfg.connected = false) :
    (enter_probe_results cfg w VALID_BAUD_RATES).length
      ≤ VALID_BAUD_RATES.length ∧
    (VALID_BAUD_RATES.take
      (enter_probe_results cfg w VALID_BAUD_RATES).length).Nodup ∧
    (at_commander_enter_command_mode cfg w).2.2.attempts
      = w.attempts ++ VALID_BAUD_RATES.take
          (enter_probe_results cfg w VALID_BAUD_RATES).length ∧
    (at_commander_enter_command_mode cfg w).2.2.writes
      = w.writes ++ (List.replicate
          (enter_probe_results cfg w VALID_BAUD_RATES).length
          (if cfg.has_write_function then
            cfg.platform.enter_command_mode_command.request_format.getD []
          else [])).flatten ∧
    (at_commander_enter_command_mode cfg w).1
      = (at_commander_enter_command_mode cfg w).2.1.connected ∧
    (cfg.has_baud_rate_initializer = false →
      (at_commander_enter_command_mode cfg w).2.1.baud = cfg.baud) ∧
    ((∃ n, enter_probe_results cfg w VALID_BAUD_RATES
          = List.replicate n false ++ [true] ∧
        (at_commander_enter_command_mode cfg w).1 = true ∧
        (cfg.has_baud_rate_initializer = true →
          (at_commander_enter_command_mode cfg w).2.1.baud
            = VALID_BAUD_RATES.getD n 0)) ∨
      (enter_probe_results cfg w VALID_BAUD_RATES
          = List.replicate VALID_BAUD_RATES.length false ∧
        (at_commander_enter_command_mode cfg w).1 = false ∧
        (at_commander_enter_command_mode cfg w).2.1.connected = false)) := by
  obtain ⟨L1, L2, L3, L4⟩ := enter_probe_spec VALID_BAUD_RATES cfg w h
  have hb : ¬ cfg.connected = true := by simp [h]
  have hunf : at_commander_enter_command_mode cfg w
      = ((enter_probe cfg w VALID_BAUD_RATES).1.connected,
          (enter_probe cfg w VALID_BAUD_RATES).1,
          (enter_probe cfg w VALID_BAUD_RATES).2) := by
    rw [at_commander_enter_command_mode, if_neg hb]
  refine ⟨L1, (List.take_sublist _ _).nodup (by decide), ?_, ?_, ?_, ?_, ?_⟩
  · rw [hunf]; exact L2
  · rw [hunf]; exact L3
  · rw [hunf]
  · intro hf
    rw [hunf]
    exact enter_probe_no_init_baud VALID_BAUD_RATES cfg w hf
  · rcases L4 with ⟨n, a, b, c⟩ | ⟨a, b⟩
    · exact Or.inl ⟨n, a, by rw [hunf]; exact b, fun hi => by rw [hunf]; exact c hi⟩
    · exact Or.inr ⟨a, by rw [hunf]; exact b, by rw [hunf]; exact b⟩

/-- C1 witness: an RN-42 session with a baud-rate initializer, whose device
answers `CMD\r\n` immediately — the probe succeeds at the first candidate
(1200), attempting nothing further, and records baud 1200. -/
theorem at_commander_enter_command_mode_spec_witness :
    (rn42_config false true).connected = false ∧
    (at_commander_enter_command_mode (rn42_config false true)
        (world0 (cstr "CMD\r\n"))).1 = true ∧
    (at_commander_enter_command_mode (rn42_config false true)
        (world0 (cstr "CMD\r\n"))).2.2.attempts = [1200] ∧
    (at_commander_enter_command_mode (rn42_config false true)
        (world0 (cstr "CMD\r\n"))).2.1.baud = 1200 := by
  have h := at_commander_enter_command_mode_spec (rn42_config false true)
    (world0 (cstr "CMD\r\n")) rfl
  refine ⟨rfl, ?_, by decide, ?_⟩
  · rcases h.2.2.2.2.2.2 with ⟨n, _, hb, _⟩ | ⟨ha, _, _⟩
    · exact hb
    · exact absurd ha (by decide)
  · rcases h.2.2.2.2.2.2 with ⟨n, ha, _, hc⟩ | ⟨ha, _, _⟩
    · have hn : n = 0 := by
        have h2 := congrArg List.length ha
        have h3 : (enter_probe_results (rn42_config false true)
            (world0 (cstr "CMD\r\n")) VALID_BAUD_RATES).length = 1 := by decide
        rw [h3] at h2
        simp at h2
        omega
      have := hc rfl
      rw [hn] at this
      simpa using this
    · exact absurd ha (by decide)

/-- C1 counterexample to the claim as stated: with no baud-rate initializer
capability, the probe succeeds at the first candidate (1200) and returns true
— but the session's baud field keeps its old value (here 0, the baud of
`rn42_config`) instead of being set to the successful candidate
(`initialize_baud`, atcommander.c:127-137, only assigns `config->baud` when
`baud_rate_initializer` is non-NULL), so "recording that baud" fails for this
session configuration. -/
theorem enter_command_mode_baud_not_recorded :
    (at_commander_enter_command_mode (rn42_config false false)
        (world0 (cstr "CMD\r\n"))).1 = true ∧
    (at_commander_enter_command_mode (rn42_config false false)
        (world0 (cstr "CMD\r\n"))).2.2.attempts = [1200] ∧
    (at_commander_enter_command_mode (rn42_config false false)
        (world0 (cstr "CMD\r\n"))).2.1.baud = (rn42_config false false).baud ∧
    (at_commander_enter_command_mode (rn42_config false false)
        (world0 (cstr "CMD\r\n"))).2.1.baud ≠ 1200 :=
  ⟨by decide, by decide, by decide, by decide⟩

/-- C5: when the session is already connected (as it is immediately after a
successful call), `at_commander_enter_command_mode` returns true at once and
changes nothing: the configuration and the whole world — input stream,
writes, delays, baud reconfigurations — are returned untouched. -/
theorem at_commander_enter_command_mode_idem (cfg : AtCommanderConfig)
    (w : AtWorld) (h : cfg.connected = true) :
    at_commander_enter_command_mode cfg w = (true, cfg, w) := by
  simp [at_commander_enter_command_mode, h]

/-- C5 witness. -/
theorem at_commander_enter_command_mode_idem_witness :
    (rn42_config true true).connected = true ∧
    at_commander_enter_command_mode (rn42_config true true) (world0 [])
      = (true, rn42_config true true, world0 []) :=
  ⟨rfl, at_commander_enter_command_mode_idem (rn42_config true true)
    (world0 []) rfl⟩

/-- C6: exiting command mode is a no-op returning true when already
disconnected (nothing is issued — the whole world is untouched); otherwise
the exit descriptor is issued through the engine exactly once (the resulting
world is that of the single round trip, whose writes extend the old ones by
exactly one copy of the exit request), and on success `connected` is cleared
and true returned, while on failure `connected` stays set and false is
returned. -/
theorem at_commander_exit_command_mode_spec (cfg : AtCommanderConfig)
    (w : AtWorld) :
    (cfg.connected = false →
      at_commander_exit_command_mode cfg w = (true, cfg, w)) ∧
    (cfg.connected = true →
      (at_commander_exit_command_mode cfg w).2.2 = (exit_round_trip cfg w).2 ∧
      (at_commander_exit_command_mode cfg w).2.2.writes
        = w.writes ++ (if cfg.has_write_function then
            cfg.platform.exit_command_mode_command.request_format.getD []
          else []) ∧
      ((exit_round_trip cfg w).1 = true →
        at_commander_exit_command_mode cfg w
          = (true, { cfg with connected := false }, (exit_round_trip cfg w).2)) ∧
      ((exit_round_trip cfg w).1 = false →
        at_commander_exit_command_mode cfg w
          = (false, cfg, (exit_round_trip cfg w).2))) := by
  constructor
  · intro h
    rw [at_commander_exit_command_mode, if_neg (by simp [h])]
  · intro h
    rw [at_commander_exit_command_mode, if_pos h]
    by_cases hr : (exit_round_trip cfg w).1 = true
    · rw [if_pos hr]
      refine ⟨rfl, ?_, fun _ => rfl, fun hf => absurd hr (by simp [hf])⟩
      simp [exit_round_trip, command_request_writes]
    · rw [if_neg hr]
      refine ⟨rfl, ?_, fun ht => absurd ht hr, fun _ => rfl⟩
      simp [exit_round_trip, command_request_writes]

/-- C6 witness: a connected RN-42 session whose device answers `END\r\n` —
the exit round trip succeeds, the session disconnects and true is returned. -/
theorem at_commander_exit_command_mode_spec_witness :
    (rn42_config true true).connected = true ∧
    at_commander_exit_command_mode (rn42_config true true)
        (world0 (cstr "END\r\n"))
      = (true, { rn42_config true true with connected := false },
          (exit_round_trip (rn42_config true true)
            (world0 (cstr "END\r\n"))).2) := by
  have h := ((at_commander_exit_command_mode_spec (rn42_config true true)
    (world0 (cstr "END\r\n"))).2 rfl).2.2.1 (by decide)
  exact ⟨rfl, h⟩

/-- C7: when either half of the profile's store-settings descriptor is
absent, `at_commander_store_settings` returns false with the world — hence
the transport — completely untouched; when both halves are present it is
exactly one round trip of the command/request engine, whose boolean result it
returns. -/
theorem at_commander_store_settings_spec (cfg : AtCommanderConfig)
    (w : AtWorld) :
    ((cfg.platform.store_settings_command.request_format = none ∨
      cfg.platform.store_settings_command.expected_response = none) →
      at_commander_store_settings cfg w = (false, w)) ∧
    (∀ req resp,
      cfg.platform.store_settings_command.request_format = some req →
      cfg.platform.store_settings_command.expected_response = some resp →
      at_commander_store_settings cfg w = command_request cfg w req resp) := by
  constructor
  · intro h
    rcases hq : cfg.platform.store_settings_command.request_format with _ | req <;>
      rcases hr2 : cfg.platform.store_settings_command.expected_response with _ | resp <;>
        simp_all [at_commander_store_settings]
  · intro req resp hq hr2
    rw [at_commander_store_settings, hq, hr2]

/-- C7 witness: the RN-42 profile has no store descriptor, so the call
returns false and sends nothing. -/
theorem at_commander_store_settings_spec_witness :
    at_commander_store_settings (rn42_config true true) (world0 [])
      = (false, world0 []) :=
  (at_commander_store_settings_spec (rn42_config true true) (world0 [])).1
    (Or.inl rfl)

/-- C8 (amended): when mode entry succeeds, `at_commander_reboot` writes
exactly the first five bytes of the profile's reboot request literal (the
whole literal for the RN-42 profile, whose literal is exactly five bytes)
directly to the transport — no settle delay, no response read, no
verification — and returns true; when mode entry fails it performs nothing
further and returns false. -/
theorem at_commander_reboot_spec (cfg : AtCommanderConfig) (w : AtWorld) :
    ((at_commander_enter_command_mode cfg w).1 = true →
      (at_commander_reboot cfg w).1 = true ∧
      (at_commander_reboot cfg w).2.1
        = (at_commander_enter_command_mode cfg w).2.1 ∧
      (at_commander_reboot cfg w).2.2.writes
        = (at_commander_enter_command_mode cfg w).2.2.writes ++
          (if cfg.has_write_function then
            (cfg.platform.reboot_command.request_format.getD []).take 5
          else []) ∧
      (at_commander_reboot cfg w).2.2.input
        = (at_commander_enter_command_mode cfg w).2.2.input ∧
      (at_commander_reboot cfg w).2.2.delays
        = (at_commander_enter_command_mode cfg w).2.2.delays ∧
      (at_commander_reboot cfg w).2.2.baud_inits
        = (at_commander_enter_command_mode cfg w).2.2.baud_inits) ∧
    ((at_commander_enter_command_mode cfg w).1 = false →
      at_commander_reboot cfg w
        = (false, (at_commander_enter_command_mode cfg w).2.1,
            (at_commander_enter_command_mode cfg w).2.2)) := by
  have hp := at_commander_enter_preserves cfg w
  constructor
  · intro h
    rw [at_commander_reboot, if_pos h]
    refine ⟨rfl, rfl, ?_, ?_, ?_, ?_⟩ <;> simp [write, hp.1, hp.2.2]
  · intro h
    rw [at_commander_reboot, if_neg (by simp [h])]

/-- C8 witness: a connected RN-42 session — reboot writes the full
five-byte literal `R,1\r\n` and returns true. -/
theorem at_commander_reboot_spec_witness :
    (at_commander_enter_command_mode (rn42_config true true) (world0 [])).1
      = true ∧
    (at_commander_reboot (rn42_config true true) (world0 [])).1 = true ∧
    (at_commander_reboot (rn42_config true true) (world0 [])).2.2.writes
      = cstr "R,1\r\n" := by
  have h := (at_commander_reboot_spec (rn42_config true true) (world0 [])).1 rfl
  exact ⟨rfl, h.1, by decide⟩

/-- A session whose profile carries a reboot request longer than five bytes,
to exhibit the hard-coded write size of `at_commander_reboot`
(atcommander.c:187). -/
def long_reboot_config : AtCommanderConfig :=
  { rn42_config true true with
    platform := { AT_PLATFORM_RN42 with
      reboot_command := ⟨some (cstr "WAIT,REBOOT\r\n"), none⟩ } }

/-- C8 counterexample to the claim as stated: `write(config,
config->platform.reboot_command.request_format, 5)` sends a hard-coded five
bytes, not the literal — with a 13-byte reboot request only `WAIT,` goes out,
so reboot does not "write the profile's reboot request literal" for every
profile. -/
theorem at_commander_reboot_truncates :
    (at_commander_reboot long_reboot_config (world0 [])).1 = true ∧
    (at_commander_reboot long_reboot_config (world0 [])).2.2.writes
      = cstr "WAIT," ∧
    (at_commander_reboot long_reboot_config (world0 [])).2.2.writes
      ≠ long_reboot_config.platform.reboot_command.request_format.getD [] :=
  ⟨by decide, by decide, by decide⟩

/-- C3: when the set-baud round trip fails, `at_commander_set_baud` returns
false and the recorded device baud is unchanged — also when command mode was
freshly entered by this call (entry never touches `device_baud`), and also
when entry itself fails; when the round trip succeeds, the device baud is set
to the requested value, `at_commander_store_settings` is attempted on the
resulting state, and true is returned regardless of the store's outcome (the
result world is the store attempt's world, but the result and baud do not
depend on it). -/
theorem at_commander_set_baud_spec (cfg : AtCommanderConfig) (w : AtWorld)
    (baud : Int) :
    ((at_commander_enter_command_mode cfg w).1 = false →
      at_commander_set_baud cfg w baud
        = (false, (at_commander_enter_command_mode cfg w).2.1,
            (at_commander_enter_command_mode cfg w).2.2) ∧
      (at_commander_set_baud cfg w baud).2.1.device_baud = cfg.device_baud) ∧
    ((at_commander_enter_command_mode cfg w).1 = true →
      ((set_baud_round_trip cfg w baud).1 = false →
        (at_commander_set_baud cfg w baud).1 = false ∧
        (at_commander_set_baud cfg w baud).2.1.device_baud
          = cfg.device_baud ∧
        (at_commander_set_baud cfg w baud).2.2
          = (set_baud_round_trip cfg w baud).2) ∧
      ((set_baud_round_trip cfg w baud).1 = true →
        (at_commander_set_baud cfg w baud).1 = true ∧
        (at_commander_set_baud cfg w baud).2.1.device_baud = baud ∧
        (at_commander_set_baud cfg w baud).2.2
          = (at_commander_store_settings
              { (at_commander_enter_command_mode cfg w).2.1 with
                device_baud := baud }
              (set_baud_round_trip cfg w baud).2).2)) := by
  have hp := at_commander_enter_preserves cfg w
  constructor
  · intro h
    rw [at_commander_set_baud, if_neg (by simp [h])]
    exact ⟨rfl, hp.2.1⟩
  · intro h
    rw [at_commander_set_baud, if_pos h]
    by_cases hr : (set_baud_round_trip cfg w baud).1 = true
    · rw [if_pos hr]
      exact ⟨fun hf => absurd hr (by simp [hf]), fun _ => ⟨rfl, rfl, rfl⟩⟩
    · rw [if_neg hr]
      exact ⟨fun _ => ⟨rfl, hp.2.1, rfl⟩, fun ht => absurd ht hr⟩

/-- C3 witness: a connected RN-42 session whose device answers `AOK\r\n` —
the set-baud round trip succeeds and the device baud is recorded. -/
theorem at_commander_set_baud_spec_witness :
    (at_commander_set_baud (rn42_config true true)
        (world0 (cstr "AOK\r\n")) 115200).1 = true ∧
    (at_commander_set_baud (rn42_config true true)
        (world0 (cstr "AOK\r\n")) 115200).2.1.device_baud = 115200 := by
  have h := ((at_commander_set_baud_spec (rn42_config true true)
    (world0 (cstr "AOK\r\n")) 115200).2 rfl).2 (by decide)
  exact ⟨h.1, h.2.1⟩
